import Mathlib

/-!
Shallow embedding of the recepy AFIP client (wsaa.py, functions/utils.py,
libs/utils.py, libs/web_service.py, ws_sr_padron_a4.py) together with
theorems settling the specification claims about it.

Conventions of the embedding:
* Instants are seconds since the Unix epoch, as `Int` (the NTP float
  timestamps are truncated to whole seconds by `replace(microsecond=0)`,
  so whole seconds suffice).
* A Python naive `datetime` is represented by the epoch second of the
  civil time it denotes; `datetime.fromtimestamp` adds the platform's
  local UTC offset `localOffset` (a parameter of the embedding),
  `datetime.utcfromtimestamp` adds nothing.
* Byte strings are `String` when content is ASCII text, `List Nat` for
  raw bytes (the PKCS#7 output of openssl).
-/

namespace Recepy

/-- Zero left-pad a natural to two digits, as Python's %02d fields inside
`str(timedelta)` and `isoformat`. -/
def pad2 (n : Nat) : String :=
  if n < 10 then "0" ++ toString n else toString n

/-- Zero left-pad a year to four digits, as in `datetime.isoformat`. -/
def pad4 (n : Nat) : String :=
  if n < 10 then "000" ++ toString n
  else if n < 100 then "00" ++ toString n
  else if n < 1000 then "0" ++ toString n
  else toString n

/-- Convert a count of days since 1970-01-01 to a civil (year, month, day)
triple, the standard era-based algorithm used by civil-time libraries;
mirrors what Python's `datetime` renders for the date part. -/
def civilFromDays (z0 : Int) : Int × Nat × Nat :=
  let z := z0 + 719468
  let era := (if 0 ≤ z then z else z - 146096) / 146097
  let doe := (z - era * 146097).toNat
  let yoe := (doe - doe / 1460 + doe / 36524 - doe / 146096) / 365
  let y := (yoe : Int) + era * 400
  let doy := doe - (365 * yoe + yoe / 4 - yoe / 100)
  let mp := (5 * doy + 2) / 153
  let d := doy - (153 * mp + 2) / 5 + 1
  let m := if mp < 10 then mp + 3 else mp - 9
  (y + (if m ≤ 2 then 1 else 0), m, d)

/-- `datetime.isoformat()` of a naive datetime with `microsecond=0`:
`YYYY-MM-DDTHH:MM:SS`.  The argument is the epoch second of the civil
time the datetime denotes. -/
def isoformat (t : Int) : String :=
  let days := t.ediv 86400
  let secs := (t.emod 86400).toNat
  let ymd := civilFromDays days
  pad4 ymd.1.toNat ++ "-" ++ pad2 ymd.2.1 ++ "-" ++ pad2 ymd.2.2 ++ "T" ++
    pad2 (secs / 3600) ++ ":" ++ pad2 (secs % 3600 / 60) ++ ":" ++ pad2 (secs % 60)

/-- `str(timedelta(seconds=s))` for `0 ≤ s < 86400`: `H:MM:SS` with an
unpadded hour field. -/
def timedeltaStr (s : Nat) : String :=
  toString (s / 3600) ++ ":" ++ pad2 (s % 3600 / 60) ++ ":" ++ pad2 (s % 60)

/-- functions/utils.py `get_timezone` (same code in libs/utils.py and
libs/utility.py): renders the platform UTC offset as `±hh:mm`.

In the source, `current = datetime.fromtimestamp(timestamp)` and
`utc = datetime.utcfromtimestamp(timestamp)`, so `current - utc` is the
platform's local UTC offset at that instant; the function depends on the
timestamp only through that offset, which is the parameter here.
`utc > current` is `localOffset < 0`; the `.seconds` attribute of the
(positive) difference is its total seconds modulo 86400. -/
def get_timezone (localOffset : Int) : String :=
  let signSeconds : String × Nat :=
    if localOffset < 0 then ("-", ((-localOffset).emod 86400).toNat)
    else ("+", (localOffset.emod 86400).toNat)
  let timezone := signSeconds.1
  let seconds := (timedeltaStr signSeconds.2).dropRight 3
  if seconds.length = 4 then timezone ++ "0" ++ seconds else timezone ++ seconds

/-- functions/utils.py `timestamp_to_datetime`: `datetime.fromtimestamp`
applies the platform offset, `replace(microsecond=0)` truncates to the
whole second (already whole here). -/
def timestamp_to_datetime (timestamp localOffset : Int) : Int :=
  timestamp + localOffset

/-- Python truthiness of the `timestamp` variable in libs/utils.py:
`None` and `0` are falsy. -/
def truthy : Option Int → Bool
  | none => false
  | some v => v != 0

/-- The hard-coded `ntp_server_tuple` of `ntp_time`. -/
def ntp_server_tuple : List String :=
  ["ar.pool.ntp.org", "south-america.pool.ntp.org"]

/-- The `for server in ntp_server_tuple` loop of `ntp_time`: each
iteration overwrites `timestamp` with the server's response (`none`
models an `NTPException`/`gaierror`), and the `else: break` clause stops
at the first server that responds without raising.  Returns the final
`timestamp` and the list of servers queried, in order. -/
def ntp_loop (resp : String → Option Int) : Option Int → List String → Option Int × List String
  | t, [] => (t, [])
  | _, s :: rest =>
      match resp s with
      | some v => (some v, [s])
      | none =>
          let p := ntp_loop resp none rest
          (p.1, s :: p.2)

/-- libs/utils.py `ntp_time` (identical in functions/utils.py and
libs/utility.py), instrumented with the list of servers queried.
`resp server` is the outcome of `client.request(server).tx_time`
(`none` models `NTPException`/`gaierror`); `ntp_server = none` models an
absent/empty primary server argument. -/
def ntp_time (resp : String → Option Int) (ntp_server : Option String) :
    Option Int × List String :=
  let first : Option Int × List String :=
    match ntp_server with
    | some s => (resp s, [s])
    | none => (none, [])
  if truthy first.1 then first
  else
    let p := ntp_loop resp first.1 ntp_server_tuple
    (p.1, first.2 ++ p.2)

/-- libs/utils.py `get_datetime`: queries `ntp_time source`, falls back
to the local wall clock (`localNow`, the value of
`datetime.now().timestamp()`) when no timestamp was obtained, then
converts with `timestamp_to_datetime`. -/
def get_datetime (resp : String → Option Int) (localOffset localNow : Int)
    (source : String) : Option Int :=
  let timestamp := (ntp_time resp (some source)).1
  let timestamp := if truthy timestamp then timestamp else some localNow
  if truthy timestamp then
    match timestamp with
    | some t => some (timestamp_to_datetime t localOffset)
    | none => none
  else none

/-! XML documents as built by `lxml.builder.E` and serialized by
`lxml.etree.tostring`. -/

mutual
/-- An XML node: character data or an element with attributes and
children, mirroring the tree `lxml.builder.E` constructs. -/
inductive Xml where
  | text (s : String)
  | elem (name : String) (attrs : List (String × String)) (children : XmlList)
/-- A list of XML nodes (spelled out so that all recursions below are
structural and kernel-reducible). -/
inductive XmlList where
  | nil
  | cons (hd : Xml) (tl : XmlList)
end

/-- Children of an element node as an ordinary list. -/
def XmlList.toList : XmlList → List Xml
  | .nil => []
  | .cons x xs => x :: xs.toList

/-- Tag name of a node (empty for character data). -/
def Xml.tagName : Xml → String
  | .text _ => ""
  | .elem n _ _ => n

/-- Attribute list of a node. -/
def Xml.attrList : Xml → List (String × String)
  | .text _ => []
  | .elem _ a _ => a

/-- Children of a node as an ordinary list. -/
def Xml.kids : Xml → List Xml
  | .text _ => []
  | .elem _ _ cs => cs.toList

/-- The n-th child of a node (character data `""` when absent). -/
def Xml.child (x : Xml) (n : Nat) : Xml :=
  x.kids.getD n (.text "")

/-- Text content of a leaf element (one holding only character data),
the shape `builder.E.name(string)` produces. -/
def Xml.textContent : Xml → String
  | .elem _ _ (.cons (.text s) .nil) => s
  | .text s => s
  | _ => ""

/-- Escape of character data performed by `lxml` when serializing text
nodes. -/
def escapeText (s : String) : String :=
  String.join (s.toList.map fun c =>
    if c = '&' then "&amp;"
    else if c = '<' then "&lt;"
    else if c = '>' then "&gt;"
    else String.singleton c)

/-- Escape of attribute values performed by `lxml` (double-quoted
attributes). -/
def escapeAttr (s : String) : String :=
  String.join (s.toList.map fun c =>
    if c = '&' then "&amp;"
    else if c = '<' then "&lt;"
    else if c = '"' then "&quot;"
    else String.singleton c)

/-- Serialization of an attribute list, `lxml` style: a space before
each `key="value"` pair. -/
def attrsString : List (String × String) → String
  | [] => ""
  | (k, v) :: rest => " " ++ k ++ "=\x22" ++ escapeAttr v ++ "\x22" ++ attrsString rest

/-- Indentation used by `lxml`'s `pretty_print=True`: two spaces per
nesting level. -/
def indentStr (n : Nat) : String :=
  String.join (List.replicate n "  ")

mutual
/-- `lxml.etree.tostring(..., pretty_print=True)` of one node at a given
nesting depth: a leaf element renders on one line, an element with
element children renders its children indented one level deeper, an
empty element self-closes. -/
def ppXml (ind : Nat) : Xml → String
  | .text s => escapeText s
  | .elem n a .nil =>
      indentStr ind ++ "<" ++ n ++ attrsString a ++ "/>\n"
  | .elem n a (.cons (.text s) .nil) =>
      indentStr ind ++ "<" ++ n ++ attrsString a ++ ">" ++ escapeText s ++
        "</" ++ n ++ ">\n"
  | .elem n a (.cons c cs) =>
      indentStr ind ++ "<" ++ n ++ attrsString a ++ ">\n" ++
        ppXmlList (ind + 1) (.cons c cs) ++ indentStr ind ++ "</" ++ n ++ ">\n"
/-- Pretty-printing of a list of sibling nodes. -/
def ppXmlList (ind : Nat) : XmlList → String
  | .nil => ""
  | .cons x xs => ppXml ind x ++ ppXmlList ind xs
end

/-- The XML declaration emitted by `lxml.etree.tostring` with
`xml_declaration=True, encoding='UTF-8'`. -/
def xmlDeclaration : String :=
  "<?xml version='1.0' encoding='UTF-8'?>\n"

/-! wsaa.py -/

/-- The configuration dictionary `data` a `WSAA` object is constructed
from (wsaa.py `WSAA.__init__`). -/
structure WSAAData where
  connection : String
  certificate : String
  private_key : String
  passphrase : String
  cacert : String
  ttl : Int
  web_service : String

/-- Python's `random.randint(a, b)`: an integer `N` with `a ≤ N ≤ b`,
both ends included.  `draw` is the randomness consumed by this one call;
every residue of `draw` modulo the size of the inclusive range is
reachable. -/
def randint (a b : Nat) (draw : Nat) : Nat :=
  a + draw % (b - a + 1)

/-- wsaa.py `WSAA.create_tra`, the tree handed to `etree.tostring`.

`timestamp` is the instant returned by the trusted time source (the
`utils.afip_ntp_time()` call; that helper is not defined in
src/functions/utils.py, its result is this parameter) and `localOffset`
is the platform UTC offset that `datetime.fromtimestamp` applies.  The
`utils.afip_timezone(timestamp)` call is likewise absent from
src/functions/utils.py and is modelled by `get_timezone`, the
repository's only UTC-offset formatter (functions/utils.py
`get_timezone`).  `draw` is the randomness consumed by the call's
`random.randint(0, 4294967295)`. -/
def create_tra_xml (data : WSAAData) (timestamp localOffset : Int) (draw : Nat) : Xml :=
  let dcn := if data.connection = "prod" then "wsaa" else "wsaahomo"
  let dest := "cn=" ++ dcn ++ ",o=afip,c=ar,serialNumber=CUIT 33693450239"
  let current_time := timestamp_to_datetime timestamp localOffset
  let generation_time := isoformat current_time
  let expiration_time := isoformat (current_time + 30 * 60)
  let timezone := get_timezone localOffset
  .elem "loginTicketRequest" [("version", "1.0")] (.cons
    (.elem "header" [] (.cons
      (.elem "destination" [] (.cons (.text dest) .nil))
      (.cons (.elem "uniqueID" [] (.cons (.text (toString (randint 0 4294967295 draw))) .nil))
      (.cons (.elem "generationTime" [] (.cons (.text (generation_time ++ timezone)) .nil))
      (.cons (.elem "expirationTime" [] (.cons (.text (expiration_time ++ timezone)) .nil))
      .nil)))))
    (.cons (.elem "service" [] (.cons (.text data.web_service) .nil)) .nil))

/-- wsaa.py `WSAA.create_tra`: the byte string `etree.tostring` returns
for the tree above, with `pretty_print=True, xml_declaration=True,
encoding='UTF-8'`. -/
def create_tra (data : WSAAData) (timestamp localOffset : Int) (draw : Nat) : String :=
  xmlDeclaration ++ ppXml 0 (create_tra_xml data timestamp localOffset draw)

/-- Outcome of the `Popen(['openssl', 'smime', '-sign', ...])` call in
`WSAA.sign_tra`: either the executable cannot be located
(`FileNotFoundError`) or the process runs and `communicate` returns the
bytes it wrote to stdout and stderr. -/
inductive PopenResult where
  | fileNotFound
  | ran (stdout : List Nat) (stderr : List Nat)

/-- Base64 alphabet used by `base64.b64encode`. -/
def b64chars : List Char :=
  "ABCDEFGHIJKLMNOPQRSTUVWXYZabcdefghijklmnopqrstuvwxyz0123456789+/".toList

/-- One Base64 output character. -/
def b64char (n : Nat) : Char :=
  b64chars.getD n 'A'

/-- `base64.b64encode` over a byte list (result rendered as the ASCII
string the returned bytes spell). -/
def b64encode : List Nat → String
  | [] => ""
  | [a] =>
      String.mk [b64char (a / 4), b64char (a % 4 * 16), '=', '=']
  | [a, b] =>
      String.mk [b64char (a / 4), b64char (a % 4 * 16 + b / 16), b64char (b % 16 * 4), '=']
  | a :: b :: c :: rest =>
      String.mk [b64char (a / 4), b64char (a % 4 * 16 + b / 16),
        b64char (b % 16 * 4 + c / 64), b64char (c % 64)] ++ b64encode rest

/-- wsaa.py `WSAA.sign_tra`: pipes the TRA through
`openssl smime -sign -outform DER -nodetach`, Base64-encodes whatever
the process wrote to stdout, and returns `none` only when the
executable raises `FileNotFoundError`; the stderr stream is never
inspected.  `popen` maps the stdin fed to the process to the outcome of
the invocation. -/
def sign_tra (tra : String) (popen : String → PopenResult) : Option String :=
  match popen tra with
  | .ran stdout _stderr => some (b64encode stdout)
  | .fileNotFound => none

/-- wsaa.py `main`, lines 455-465: create the TRA, sign it, and exit via
`SystemExit` when the signature is falsy (`None` or an empty byte
string).  The second component lists the network calls `main` makes to
the WSAA authentication endpoint: the submission code is absent from
wsaa.py's `main` (the `call_wsaa`/`login_cms` block is commented out),
so the list is empty on every path. -/
def main_sign_step (data : WSAAData) (timestamp localOffset : Int) (draw : Nat)
    (popen : String → PopenResult) : Except String String × List String :=
  let ticket := create_tra data timestamp localOffset draw
  let sign := sign_tra ticket popen
  match sign with
  | none => (.error "No se encontró el ejecutable openssl", [])
  | some s =>
      if s = "" then (.error "No se encontró el ejecutable openssl", [])
      else (.ok s, [])

/-! libs/web_service.py and ws_sr_padron_a4.py -/

/-- Python's `str.lower` on one character (the keys involved are ASCII,
where `str.lower` maps exactly the range A-Z). -/
def lowerChar (c : Char) : Char :=
  if 'A' ≤ c ∧ c ≤ 'Z' then Char.ofNat (c.toNat + 32) else c

/-- Python's `str.lower` (ASCII range). -/
def pyLower (s : String) : String :=
  String.mk (s.toList.map lowerChar)

/-- Python `dict` update step for an association list: replace the value
of an existing key, otherwise append the new binding (insertion order
preserved, as in a `dict` comprehension). -/
def dictInsert (d : List (String × String)) (k v : String) : List (String × String) :=
  if d.any (fun p => p.1 = k) then
    d.map (fun p => if p.1 = k then (k, v) else p)
  else d ++ [(k, v)]

/-- libs/web_service.py `WSBase.dummy`, the
`{key.lower(): value for (key, value) in response.items()}`
comprehension: a dict keyed by the lower-cased keys of the serialized
response, in insertion order. -/
def statusDict (response : List (String × String)) : List (String × String) :=
  response.foldl (fun d p => dictInsert d (pyLower p.1) p.2) []

namespace WSBase

/-- libs/web_service.py `WSBase.dummy` after obtaining the serialized
response (a finite string-to-string mapping, given as its ordered item
list): builds `status`, then returns `True` at the first status value
different from `'OK'` and `False` when the loop finishes.  The
debug-logging branch only writes to the log and is omitted. -/
def dummy (response : List (String × String)) : Bool :=
  (statusDict response).any (fun p => p.2 != "OK")

end WSBase

namespace WSSRPADRONA4

/-- ws_sr_padron_a4.py `WSSRPADRONA4.__dummy` after obtaining the
serialized response: starts with `server_down = False` and sets it to
`True` for every value different from `'OK'` (no early exit). -/
def dummy (response : List (String × String)) : Bool :=
  response.foldl (fun server_down p => if p.2 != "OK" then true else server_down) false

end WSSRPADRONA4

/-! The orchestrator `WSAA.get_ticket` -/

/-- A parsed Ticket of Access: token, sign and expiration instant. -/
structure TicketResponse where
  token : String
  sign : String
  expirationTime : Int

/-- The spec's 120-second safety margin. -/
def safety_margin : Int := 120

/-- Modelled from the spec: `WSAA.get_ticket` is not present under src/
(ws_sr_padron.py, ws_sr_padron_a4.py and wsfe.py call it but no source
file defines it); this follows spec §4.6's state machine.  `cache` is
the parsed cache file for the requested web-service name (`none` when
the file is missing or fails to parse, spec's NoTicket/CacheCorrupt),
`now` the trusted time at the check, and `fresh` the ticket the
Builder → Signer → Transport → Parser pipeline would obtain.  Returns
the token/sign pair and the number of network calls issued to the
authentication endpoint: zero on the CachedValid path (expiration minus
the safety margin still in the future), one full request cycle
otherwise. -/
def get_ticket (cache : Option TicketResponse) (now : Int) (fresh : TicketResponse) :
    (String × String) × Nat :=
  match cache with
  | some ta =>
      if now + safety_margin < ta.expirationTime then ((ta.token, ta.sign), 0)
      else ((fresh.token, fresh.sign), 1)
  | none => ((fresh.token, fresh.sign), 1)

/-! Helper lemmas -/

/-- Folding `dictInsert` over bindings whose (lower-cased) keys are fresh
and pairwise distinct just appends them in order. -/
theorem foldl_dictInsert_eq_append (resp : List (String × String)) :
    ∀ d : List (String × String),
      (d.map Prod.fst ++ resp.map (fun p => pyLower p.1)).Nodup →
      resp.foldl (fun d p => dictInsert d (pyLower p.1) p.2) d
        = d ++ resp.map (fun p => (pyLower p.1, p.2)) := by
  induction resp with
  | nil => intro d _; simp
  | cons p ps ih =>
      intro d h
      have hnot : pyLower p.1 ∉ d.map Prod.fst := by
        have h3 := (List.nodup_append.mp h).2.2
        intro hmem
        exact h3 hmem (List.mem_cons_self _ _)
      have hk : d.any (fun q => decide (q.1 = pyLower p.1)) = false := by
        rw [List.any_eq_false]
        intro q hq
        simp only [decide_eq_true_eq]
        intro hq1
        exact hnot (hq1 ▸ List.mem_map_of_mem Prod.fst hq)
      have hstep : dictInsert d (pyLower p.1) p.2 = d ++ [(pyLower p.1, p.2)] := by
        unfold dictInsert
        rw [hk]
        simp
      rw [List.foldl_cons, hstep, ih (d ++ [(pyLower p.1, p.2)]) ?_]
      · simp
      · have : (d ++ [(pyLower p.1, p.2)]).map Prod.fst ++ ps.map (fun p => pyLower p.1)
            = d.map Prod.fst ++ (p :: ps).map (fun p => pyLower p.1) := by
          simp
        rw [this]
        exact h

/-- The `server_down` flag fold of `WSSRPADRONA4.__dummy` computes
`List.any`. -/
theorem foldl_server_down_eq_any (l : List (String × String)) :
    ∀ b : Bool,
      l.foldl (fun server_down p => if p.2 != "OK" then true else server_down) b
        = (b || l.any (fun p => p.2 != "OK")) := by
  induction l with
  | nil => intro b; simp
  | cons p ps ih =>
      intro b
      rw [List.foldl_cons, ih]
      by_cases hp : p.2 = "OK" <;> simp [hp]

/-! Claim theorems -/

/-- C1, counterexample: at trusted time 0 with a zero platform offset,
`create_tra` renders `generationTime` 1970-01-01T00:00:00+00:00 and
`expirationTime` 1970-01-01T00:30:00+00:00 — thirty minutes later, not
the fifteen the claim states (the fifteen-minute rendering of the same
instant would be `isoformat` of generation + 15·60 seconds). -/
theorem C1_counterexample :
    (((create_tra_xml ⟨"prod", "", "", "", "", 21600, "wsfev1"⟩ 0 0 0).child 0).child 2).textContent
        = "1970-01-01T00:00:00+00:00" ∧
    (((create_tra_xml ⟨"prod", "", "", "", "", 21600, "wsfev1"⟩ 0 0 0).child 0).child 3).textContent
        = "1970-01-01T00:30:00+00:00" ∧
    (((create_tra_xml ⟨"prod", "", "", "", "", 21600, "wsfev1"⟩ 0 0 0).child 0).child 3).textContent
        ≠ isoformat (timestamp_to_datetime 0 0 + 15 * 60) ++ get_timezone 0 :=
  ⟨by decide, by decide, by decide⟩

/-- C1, amended: for every TRA produced by `create_tra`, the
`expirationTime` element equals the `generationTime` element plus
exactly 30 minutes: both are rendered from the same trusted-time
instant (`timestamp_to_datetime ts off`, the second one displaced by
30·60 seconds) with the same UTC-offset suffix. -/
theorem C1_expiration_window (d : WSAAData) (ts off : Int) (draw : Nat) :
    (((create_tra_xml d ts off draw).child 0).child 2).textContent
        = isoformat (timestamp_to_datetime ts off) ++ get_timezone off ∧
    (((create_tra_xml d ts off draw).child 0).child 3).textContent
        = isoformat (timestamp_to_datetime ts off + 30 * 60) ++ get_timezone off :=
  ⟨rfl, rfl⟩

/-- C3, counterexample: the second child of `header` is named
`uniqueID`, not `uniqueId` as the claim spells the element order; the
actual order is destination, uniqueID, generationTime, expirationTime. -/
theorem C3_counterexample :
    (((create_tra_xml ⟨"test", "", "", "", "", 21600, "ws_sr_padron_a4"⟩ 0 0 0).child 0).kids.map
        Xml.tagName)
      ≠ ["destination", "uniqueId", "generationTime", "expirationTime"] ∧
    (((create_tra_xml ⟨"test", "", "", "", "", 21600, "ws_sr_padron_a4"⟩ 0 0 0).child 0).kids.map
        Xml.tagName)
      = ["destination", "uniqueID", "generationTime", "expirationTime"] :=
  ⟨by decide, by decide⟩

/-- C3, amended: every TRA built by `create_tra` is the pretty-printed
serialization, preceded by the XML declaration, of a tree whose root
`loginTicketRequest` carries `version="1.0"` and holds a `header` child
with children in the order destination, uniqueID, generationTime,
expirationTime, followed by a sibling `service` element whose text is
the requested web-service name. -/
theorem C3_tra_structure (d : WSAAData) (ts off : Int) (draw : Nat) :
    (create_tra_xml d ts off draw).tagName = "loginTicketRequest" ∧
    (create_tra_xml d ts off draw).attrList = [("version", "1.0")] ∧
    ((create_tra_xml d ts off draw).kids.map Xml.tagName) = ["header", "service"] ∧
    (((create_tra_xml d ts off draw).child 0).kids.map Xml.tagName)
        = ["destination", "uniqueID", "generationTime", "expirationTime"] ∧
    ((create_tra_xml d ts off draw).child 1).textContent = d.web_service ∧
    create_tra d ts off draw = xmlDeclaration ++ ppXml 0 (create_tra_xml d ts off draw) :=
  ⟨rfl, rfl, rfl, rfl, rfl, rfl⟩

/-- C2: when the cache file for the requested web service exists, parses
successfully (`cache = some ta`), and its `expirationTime` lies more
than 120 seconds (the safety margin) in the future relative to trusted
time, `get_ticket` issues zero network calls and returns the cached
token and sign unchanged. -/
theorem C2_cache_reuse (ta fresh : TicketResponse) (now : Int)
    (h : now + 120 < ta.expirationTime) :
    get_ticket (some ta) now fresh = ((ta.token, ta.sign), 0) := by
  unfold get_ticket safety_margin
  simp only [if_pos h]

/-- C2, witness: a cached ticket expiring 900 seconds after trusted time
0 is served from cache with zero network calls. -/
theorem C2_cache_reuse_witness :
    get_ticket (some ⟨"tok", "sig", 900⟩) 0 ⟨"fresh-tok", "fresh-sig", 1800⟩
      = (("tok", "sig"), 0) :=
  C2_cache_reuse ⟨"tok", "sig", 900⟩ ⟨"fresh-tok", "fresh-sig", 1800⟩ 0 (by decide)

/-- C4: `get_timezone` renders a local time 30 minutes behind UTC as
`-00:30` and one 3 hours ahead as `+03:00`; and for every whole-minute
offset under one hour, in either direction, the hour field is the
zero-padded `00` and the minutes render with two digits. -/
theorem C4_offset_formatting :
    get_timezone (-1800) = "-00:30" ∧ get_timezone 10800 = "+03:00" ∧
    (∀ m : Nat, m < 60 → 0 < m →
      get_timezone (60 * m) = "+00:" ++ pad2 m ∧
      get_timezone (-(60 * m)) = "-00:" ++ pad2 m) :=
  ⟨by decide, by decide, by decide⟩

/-- C4, witness: the bounded clause instantiated at 29 minutes. -/
theorem C4_offset_formatting_witness :
    get_timezone (60 * 29) = "+00:" ++ pad2 29 ∧
    get_timezone (-(60 * 29)) = "-00:" ++ pad2 29 :=
  C4_offset_formatting.2.2 29 (by decide) (by decide)

/-- C5, counterexample: when the openssl process runs but writes an
error to stderr (and nothing to stdout), `sign_tra` does not signal a
failure distinct from the tool-missing case — it returns the Base64
envelope built from the tool's stdout (here the empty envelope), and
likewise returns the envelope of any partial output. -/
theorem C5_counterexample :
    sign_tra "tra" (fun _ => .ran [] [101, 114, 114, 111, 114])
      = some (b64encode []) ∧
    sign_tra "tra" (fun _ => .ran [] [101, 114, 114, 111, 114]) ≠ none ∧
    sign_tra "tra" (fun _ => .ran [48, 130] [101, 114, 114, 111, 114])
      = some (b64encode [48, 130]) :=
  ⟨rfl, by simp [sign_tra], rfl⟩

/-- C5, amended: if the signing tool runs, `sign_tra` ignores the
diagnostic stream entirely and returns the Base64 encoding of whatever
the tool wrote to stdout (the empty envelope when signing produced no
output); only a `FileNotFoundError` on invocation yields no envelope. -/
theorem C5_sign_stderr_ignored (tra : String) (popen : String → PopenResult)
    (out err : List Nat) (h : popen tra = .ran out err) :
    sign_tra tra popen = some (b64encode out) := by
  unfold sign_tra
  rw [h]

/-- C5, witness: the amended theorem evaluated at a run that wrote only
to stderr. -/
theorem C5_sign_stderr_ignored_witness :
    sign_tra "x" (fun _ => .ran [77] [101]) = some (b64encode [77]) :=
  C5_sign_stderr_ignored "x" (fun _ => .ran [77] [101]) [77] [101] rfl

/-- C6: when the signing tool cannot be located (`FileNotFoundError`),
`sign_tra` returns no envelope and `main` terminates with `SystemExit`;
the list of network calls to the authentication endpoint is empty (the
submission code is absent from wsaa.py's `main`). -/
theorem C6_signing_unavailable (d : WSAAData) (ts off : Int) (draw : Nat)
    (popen : String → PopenResult)
    (h : popen (create_tra d ts off draw) = .fileNotFound) :
    main_sign_step d ts off draw popen
      = (.error "No se encontró el ejecutable openssl", []) := by
  simp only [main_sign_step, sign_tra, h]

/-- C6, witness: the theorem evaluated with an absent openssl binary. -/
theorem C6_signing_unavailable_witness :
    main_sign_step ⟨"test", "", "", "", "", 21600, "wsfev1"⟩ 0 0 0
        (fun _ => .fileNotFound)
      = (.error "No se encontró el ejecutable openssl", []) :=
  C6_signing_unavailable ⟨"test", "", "", "", "", 21600, "wsfev1"⟩ 0 0 0
    (fun _ => .fileNotFound) rfl

/-- C7: `ntp_time` queries the supplied primary server first and stops
there on success; on the primary's failure or absence it queries
`ar.pool.ntp.org` then `south-america.pool.ntp.org` in that order,
stopping at the first server that responds; when every server fails it
returns no timestamp; and the fallback to the local wall clock happens
in the caller `get_datetime`, not in `ntp_time`. -/
theorem C7_time_source_fallback (resp : String → Option Int) (p : String) :
    (∀ v : Int, resp p = some v → v ≠ 0 → ntp_time resp (some p) = (some v, [p])) ∧
    (resp p = none → ∀ v : Int, resp "ar.pool.ntp.org" = some v →
        ntp_time resp (some p) = (some v, [p, "ar.pool.ntp.org"])) ∧
    (resp p = none → resp "ar.pool.ntp.org" = none →
        ∀ v : Int, resp "south-america.pool.ntp.org" = some v →
        ntp_time resp (some p)
          = (some v, [p, "ar.pool.ntp.org", "south-america.pool.ntp.org"])) ∧
    (resp p = none → resp "ar.pool.ntp.org" = none →
        resp "south-america.pool.ntp.org" = none →
        ntp_time resp (some p)
          = (none, [p, "ar.pool.ntp.org", "south-america.pool.ntp.org"])) ∧
    (∀ v : Int, resp "ar.pool.ntp.org" = some v →
        ntp_time resp none = (some v, ["ar.pool.ntp.org"])) ∧
    (∀ localOffset localNow : Int, resp p = none → resp "ar.pool.ntp.org" = none →
        resp "south-america.pool.ntp.org" = none → localNow ≠ 0 →
        get_datetime resp localOffset localNow p
          = some (timestamp_to_datetime localNow localOffset)) := by
  refine ⟨?_, ?_, ?_, ?_, ?_, ?_⟩
  · intro v hv hv0
    simp [ntp_time, hv, truthy, hv0]
  · intro hp v hv
    simp [ntp_time, hp, truthy, ntp_loop, ntp_server_tuple, hv]
  · intro hp har v hv
    simp [ntp_time, hp, truthy, ntp_loop, ntp_server_tuple, har, hv]
  · intro hp har hsa
    simp [ntp_time, hp, truthy, ntp_loop, ntp_server_tuple, har, hsa]
  · intro v hv
    simp [ntp_time, truthy, ntp_loop, ntp_server_tuple, hv]
  · intro localOffset localNow hp har hsa h0
    simp [get_datetime, ntp_time, hp, truthy, ntp_loop, ntp_server_tuple, har, hsa, h0]

/-- C7, witness: the all-fail, primary-success and caller-fallback
clauses evaluated on concrete response functions. -/
theorem C7_time_source_fallback_witness :
    ntp_time (fun _ => none) (some "afip.time.gob.ar")
      = (none, ["afip.time.gob.ar", "ar.pool.ntp.org", "south-america.pool.ntp.org"]) ∧
    ntp_time (fun _ => some 7) (some "afip.time.gob.ar")
      = (some 7, ["afip.time.gob.ar"]) ∧
    get_datetime (fun _ => none) (-10800) 1000 "afip.time.gob.ar"
      = some (timestamp_to_datetime 1000 (-10800)) :=
  ⟨(C7_time_source_fallback (fun _ => none) "afip.time.gob.ar").2.2.2.1 rfl rfl rfl,
   (C7_time_source_fallback (fun _ => some 7) "afip.time.gob.ar").1 7 rfl (by decide),
   (C7_time_source_fallback (fun _ => none) "afip.time.gob.ar").2.2.2.2.2
     (-10800) 1000 rfl rfl rfl (by decide)⟩

/-- C8: TRA construction is deterministic except for the observed
trusted time, the platform offset and the random draw: two `WSAA`
configurations that agree on the connection mode and the requested web
service (whatever their certificates, keys, passphrases, CA bundles or
TTLs) yield byte-identical `create_tra` output for the same timestamp,
offset and draw. -/
theorem C8_build_deterministic (d1 d2 : WSAAData) (ts off : Int) (draw : Nat)
    (hconn : d1.connection = d2.connection) (hws : d1.web_service = d2.web_service) :
    create_tra d1 ts off draw = create_tra d2 ts off draw := by
  unfold create_tra create_tra_xml
  rw [hconn, hws]

/-- C8, witness: two configurations differing in every credential field
produce byte-identical TRAs. -/
theorem C8_build_deterministic_witness :
    create_tra ⟨"prod", "cert-a", "key-a", "", "ca-a", 21600, "wsfev1"⟩ 0 (-10800) 5
      = create_tra ⟨"prod", "cert-b", "key-b", "s3cret", "ca-b", 3600, "wsfev1"⟩ 0 (-10800) 5 :=
  C8_build_deterministic _ _ 0 (-10800) 5 rfl rfl

/-- C9: the `uniqueID` element of every generated TRA carries the
decimal rendering of the integer drawn by that call's
`random.randint(0, 4294967295)`; the draw always lies in the inclusive
interval 0..4294967295, and every value of that interval is reachable,
so the id is drawn from exactly the 32-bit unsigned range. -/
theorem C9_uniqueid_range :
    (∀ (d : WSAAData) (ts off : Int) (draw : Nat),
      (((create_tra_xml d ts off draw).child 0).child 1).textContent
          = toString (randint 0 4294967295 draw) ∧
      randint 0 4294967295 draw ≤ 4294967295) ∧
    (∀ v : Nat, v ≤ 4294967295 → ∃ draw : Nat, randint 0 4294967295 draw = v) := by
  constructor
  · intro d ts off draw
    refine ⟨rfl, ?_⟩
    unfold randint
    omega
  · intro v hv
    refine ⟨v, ?_⟩
    unfold randint
    omega

/-- C9, witness: the range and reachability clauses at concrete
values. -/
theorem C9_uniqueid_range_witness :
    randint 0 4294967295 4294967296 ≤ 4294967295 ∧
    (∃ draw : Nat, randint 0 4294967295 draw = 4294967295) :=
  ⟨(C9_uniqueid_range.1 ⟨"test", "", "", "", "", 21600, "wsfev1"⟩ 0 0 4294967296).2,
   C9_uniqueid_range.2 4294967295 (by decide)⟩

/-- C10: the health check returns `False` exactly when every
server-status value in the serialized response equals `'OK'` and `True`
when at least one differs — for `WSBase.dummy` whenever the lower-cased
keys of the response are pairwise distinct (as they are for the
appserver/authserver/dbserver response), and for
`WSSRPADRONA4.__dummy` unconditionally. -/
theorem C10_dummy_health_check :
    (∀ resp : List (String × String),
      (resp.map (fun p => pyLower p.1)).Nodup →
      (WSBase.dummy resp = false ↔ ∀ p ∈ resp, p.2 = "OK")) ∧
    (∀ resp : List (String × String),
      WSSRPADRONA4.dummy resp = false ↔ ∀ p ∈ resp, p.2 = "OK") := by
  constructor
  · intro resp h
    have hdict : statusDict resp = resp.map (fun p => (pyLower p.1, p.2)) := by
      have := foldl_dictInsert_eq_append resp [] (by simpa using h)
      simpa [statusDict] using this
    unfold WSBase.dummy
    rw [hdict, List.any_eq_false]
    constructor
    · intro hall p hp
      have := hall (pyLower p.1, p.2) (List.mem_map_of_mem _ hp)
      simpa using this
    · intro hall q hq
      obtain ⟨p, hp, rfl⟩ := List.mem_map.mp hq
      simpa using hall p hp
  · intro resp
    unfold WSSRPADRONA4.dummy
    rw [foldl_server_down_eq_any, Bool.false_or, List.any_eq_false]
    constructor
    · intro hall p hp
      simpa using hall p hp
    · intro hall p hp
      simpa using hall p hp

/-- C10, witness: the `WSBase.dummy` clause evaluated on the
three-server response with every component `'OK'`. -/
theorem C10_dummy_health_check_witness :
    WSBase.dummy [("AppServer", "OK"), ("AuthServer", "OK"), ("DbServer", "OK")] = false :=
  (C10_dummy_health_check.1
      [("AppServer", "OK"), ("AuthServer", "OK"), ("DbServer", "OK")]
      (by decide)).mpr (by decide)

end Recepy
